import Mathlib

set_option maxRecDepth 8000

/-!
Shallow embedding of the dino-runner game core from `src/game.rs` and
`src/save.rs` of the yamamotsu/dino-gba-rs repository, together with
theorems settling the specification claims.

Conventions of the embedding:
* `Num<i32, 8>` fixed-point values are represented by their raw integer
  value (the real value times 256) as an unbounded `Int`; positions and
  velocities in this game stay far below the `i32` range, so `i32`
  wrap-around is irrelevant for every claim.
* `u32` counters are kept as `Nat` reduced modulo `2 ^ 32` where the code
  increments them.
* Casts `as u16` and `u16` addition in the collision code wrap modulo
  `2 ^ 16` (release-profile Rust semantics), modelled explicitly.
* The spawn queue and the enemy pool (`VecDeque`) are Lean lists; the
  front of the list is the front of the deque.  `VecDeque::with_capacity`
  is constructed with `settings.max_enemies_displayed`, and since the code
  only pushes while `len < capacity()` the buffer is never regrown, so
  `capacity()` is modelled by `settings.max_enemies_displayed`.
* Code paths that would `unwrap()` a `None` (panic) are modelled by an
  `Option` result of the frame function; `none` is a panic.
* The per-frame input sample is modelled by the two edge-triggered button
  queries the core uses (`START` and `A`).
-/

namespace DinoGame

/-- Raw value of an agb `Num<i32, 8>` fixed-point number (value times 256).
All fixed-point quantities in this file are raw values of this kind; they are
kept as plain `Int` so that every arithmetic operation is elaborated at `Int`. -/
abbrev Number := Int

/-- Rust `Number::new(x)`: the integer `x` as fixed point. -/
def Number.new (x : Int) : Int := x * 256

/-- Modelled from the spec (section 4.1): agb fixed-point `floor()` truncates
toward negative infinity to an integer pixel coordinate; on the raw value this
is an arithmetic shift right by 8, i.e. floor division by 256. -/
def Number.floor (x : Int) : Int := x / 256

/-- Modelled from the spec (section 4.1): agb fixed-point division, used once
at session setup; the raw computation is `(a.raw << 8) / b.raw` with Rust
`i32` division (truncation toward zero). -/
def fixnum_div (a b : Int) : Int := Int.tdiv (a * 256) b

/-- Modelled from the spec (section 4.1): adding an integer to a fixed-point
number converts the integer first (`Num<i32,8> + i32`). -/
def Number.add_int (a : Int) (b : Int) : Int := a + b * 256

/-- Modelled from the spec (section 4.1): fixed-point times integer scalar
multiplies the raw value. -/
def Number.mul_int (a : Int) (b : Int) : Int := a * b

structure Vector2D where
  x : Int
  y : Int
deriving Repr, DecidableEq

inductive EnemyKind where
  | Bird
  | Cactus
deriving Repr, DecidableEq

structure Enemy where
  kind : EnemyKind
  position : Vector2D
deriving Repr, DecidableEq

structure Player where
  position : Vector2D
  vertical_speed : Int
  is_jumping : Bool
deriving Repr, DecidableEq

structure Settings where
  init_scroll_velocity : Int
  scroll_velocity_increase_per_level : Int
  frames_to_level_up : Nat
  animation_interval_frames : Nat
  spawn_interval_frames : Nat
  jump_height_px : Nat
  jump_duration_frames : Nat
  max_enemies_displayed : Nat
  hi_score : Nat
deriving Repr, DecidableEq

inductive GameState where
  | Continue
  | Pause
  | Over (score : Nat)
  | Restart
deriving Repr, DecidableEq

/- Background / ground constants from `game.rs::resource`. -/

def BG_TILES_HEIGHT : Nat := 14

def BG_TILES_OFFSET_Y : Nat := (20 - BG_TILES_HEIGHT) / 2

def GROUND_TILE_Y : Nat := 11 + BG_TILES_OFFSET_Y

def GROUND_Y : Nat := GROUND_TILE_Y * 8 + 2

def DINO_GROUNDED_Y : Nat := GROUND_Y - 32

def CACTUS_Y : Nat := GROUND_Y - 32

/-- A rectangle `Rect<u16>`: position and size, all components in `[0, 2^16)`. -/
structure RectU16 where
  x : Nat
  y : Nat
  w : Nat
  h : Nat
deriving Repr, DecidableEq

def DINO_COLLISION_RECT : RectU16 := ⟨9, 4, 18, 27⟩

def BIRD_COLLISION_RECT : RectU16 := ⟨1, 13, 28, 7⟩

def CACTUS_COLLISION_RECT : RectU16 := ⟨1, 6, 27, 25⟩

/-- Wrapping `u16` addition (release-profile Rust). -/
def u16_add (a b : Nat) : Nat := (a + b) % 65536

/-- Rust `as u16` cast of an `i32`: two's-complement truncation, i.e. the
representative of the value modulo `2 ^ 16`. -/
def int_to_u16 (i : Int) : Nat := (i % 65536).toNat

/-- A `SpawnInfo` is a packed single byte. -/
abbrev SpawnInfo := Nat

/-- Rust `SpawnInfo::delay`: `(b & 0b111) * 12 + 40`. -/
def SpawnInfo.delay (b : SpawnInfo) : Nat := (b &&& 0b111) * 12 + 40

/-- Rust `SpawnInfo::enemy_kind`: bird when `(b & 0b111000) >> 3 < 4`. -/
def SpawnInfo.enemy_kind (b : SpawnInfo) : EnemyKind :=
  if (b &&& 0b111000) >>> 3 < 4 then .Bird else .Cactus

/-- Rust `SpawnInfo::enemy_arg_2bit`: `(b & 0b11000000) >> 6`. -/
def SpawnInfo.enemy_arg_2bit (b : SpawnInfo) : Nat := (b &&& 0b11000000) >>> 6

/-- The enemy pushed by the spawn step of `Game::frame` for a given spawn
byte: x starts at `8 * 30 = 240`; a bird spawns at `(arg + 6) * 8`, a cactus
at `CACTUS_Y`. -/
def spawn_enemy (info : SpawnInfo) : Enemy :=
  match SpawnInfo.enemy_kind info with
  | .Bird =>
      { kind := .Bird
        position := ⟨Number.new (8 * 30), Number.new ((SpawnInfo.enemy_arg_2bit info + 6) * 8)⟩ }
  | .Cactus =>
      { kind := .Cactus
        position := ⟨Number.new (8 * 30), Number.new CACTUS_Y⟩ }

/-- The per-frame input sample: the two edge-triggered button queries used by
the core (`is_just_pressed(START)` and `is_just_pressed(A)`). -/
structure Input where
  start_pressed : Bool
  a_pressed : Bool
deriving Repr, DecidableEq

/-- The value `2 ^ 32`, the modulus of the `u32` counters. -/
def U32 : Nat := 4294967296

/-- The value `2 ^ 16`, the modulus of `u16` values. -/
def U16 : Nat := 65536

/-- The session state owned by `Game` (`game.rs` lines 319-334).  The mgba
logger and the button controller are external collaborators and are not part
of the state; input is passed to `frame` as a sample. -/
structure Game where
  settings : Settings
  state : GameState
  frame_count : Nat
  speed_level : Nat
  background_position : Vector2D
  scroll_velocity : Int
  gravity_px_per_square_frame : Int
  player : Player
  enemies : List Enemy
  frames_current_level : Nat
  frames_since_last_spawn : Nat
  spawn_queue : List SpawnInfo
deriving Repr, DecidableEq

/-- The gravity derived at session construction (`game.rs` lines 347-348):
`Number::new(2 * jump_height_px as i32) / Number::new(jump_duration_frames.pow(2) as i32)`.
The square is computed in `u16` and therefore wraps modulo `2 ^ 16`. -/
def gravity_of (jump_height_px jump_duration_frames : Nat) : Int :=
  fixnum_div (Number.new (2 * jump_height_px))
    (Number.new ((jump_duration_frames ^ 2) % U16))

/-- Rust `Game::from_settings` (`game.rs` lines 341-366). -/
def Game.from_settings (settings : Settings) : Game :=
  { settings := settings
    state := .Continue
    frame_count := 0
    speed_level := 0
    background_position := ⟨Number.new 0, Number.new 0⟩
    scroll_velocity := settings.init_scroll_velocity
    gravity_px_per_square_frame :=
      gravity_of settings.jump_height_px settings.jump_duration_frames
    player :=
      { position := ⟨Number.new 16, Number.new DINO_GROUNDED_Y⟩
        vertical_speed := 0
        is_jumping := false }
    enemies := []
    frames_current_level := 0
    frames_since_last_spawn := 0
    spawn_queue := [] }

/-- Rust `Game::current_score` (`game.rs` lines 368-374). -/
def current_score_of (frame_count : Nat) : Nat :=
  if frame_count < 6000000 then frame_count / 6 else 999999

def Game.current_score (g : Game) : Nat := current_score_of g.frame_count

/-- Counter increments at the top of the simulated part of `Game::frame`
(`game.rs` lines 415-417). -/
def Game.inc_counters (g : Game) : Game :=
  { g with
    frame_count := (g.frame_count + 1) % U32
    frames_current_level := (g.frames_current_level + 1) % U32
    frames_since_last_spawn := (g.frames_since_last_spawn + 1) % U32 }

/-- The four spawn bytes extracted from one 32-bit random draw:
`((rnd >> (i * 8)) & 0xFF) as u8` for `i = 0..4`, pushed back in order
(`game.rs` lines 420-426). -/
def spawn_bytes (rnd : Nat) : List SpawnInfo :=
  [(rnd >>> 0) &&& 0xFF, (rnd >>> 8) &&& 0xFF, (rnd >>> 16) &&& 0xFF, (rnd >>> 24) &&& 0xFF]

/-- Refill of the spawn queue when it is empty (`game.rs` lines 420-426). -/
def Game.refill_queue (g : Game) (rnd : Nat) : Game :=
  if g.spawn_queue.isEmpty then { g with spawn_queue := spawn_bytes rnd } else g

/-- Level-up processing (`game.rs` lines 429-439). -/
def Game.level_up (g : Game) : Game :=
  if g.frames_current_level ≥ g.settings.frames_to_level_up then
    { g with
      scroll_velocity := g.scroll_velocity + g.settings.scroll_velocity_increase_per_level
      speed_level := (g.speed_level + 1) % U16
      frames_current_level := 0 }
  else g

/-- Player physics for one frame (`game.rs` lines 441-456).  While jumping:
move by the current vertical speed, clamp to the ground when the floored y
reaches `DINO_GROUNDED_Y`, then accumulate gravity into the speed.  While
grounded: a jump edge-press sets the upward impulse
`-gravity * jump_duration_frames` and the jumping flag. -/
def physics_step (p : Player) (grav : Int) (a_pressed : Bool)
    (jump_duration_frames : Nat) : Player :=
  if p.is_jumping then
    let y1 := p.position.y + p.vertical_speed
    let grounded := Number.floor y1 ≥ (DINO_GROUNDED_Y : Int)
    { p with
      position.y := if grounded then Number.new DINO_GROUNDED_Y else y1
      is_jumping := if grounded then false else true
      vertical_speed := p.vertical_speed + grav }
  else if a_pressed then
    { p with
      vertical_speed := -(Number.mul_int grav (jump_duration_frames : Int))
      is_jumping := true }
  else p

def Game.apply_physics (g : Game) (inp : Input) : Game :=
  { g with
    player :=
      physics_step g.player g.gravity_px_per_square_frame inp.a_pressed
        g.settings.jump_duration_frames }

/-- The enemy-spawn step (`game.rs` lines 458-493).  The code calls
`spawn_queue.front().unwrap()` unconditionally, so an empty queue is a panic,
modelled by `none`.  A spawn fires when the counter exceeds the front entry's
delay; the entry is then popped and the counter reset unconditionally, and the
new enemy is pushed only when `enemies.len() < capacity`. -/
def Game.spawn_step (g : Game) : Option Game :=
  match g.spawn_queue with
  | [] => none
  | info :: rest =>
      if SpawnInfo.delay info < g.frames_since_last_spawn then
        if g.enemies.length < g.settings.max_enemies_displayed then
          some { g with
                 spawn_queue := rest
                 frames_since_last_spawn := 0
                 enemies := g.enemies ++ [spawn_enemy info] }
        else
          some { g with spawn_queue := rest, frames_since_last_spawn := 0 }
      else some g

/-- One loop iteration's position update (`game.rs` lines 504-509): an enemy
whose floored x is below `-32` is only counted as out; otherwise the scroll
velocity is subtracted from its x. -/
def enemy_move (v : Int) (e : Enemy) : Enemy :=
  if Number.floor e.position.x < -32 then e
  else { e with position.x := e.position.x - v }

def enemy_is_out (e : Enemy) : Bool := Number.floor e.position.x < -32

/-- The constant hit-box rectangle associated with an enemy kind
(`sprite_cache.bird[0].rect` / `sprite_cache.cactus.rect`). -/
def kind_rect : EnemyKind → RectU16
  | .Bird => BIRD_COLLISION_RECT
  | .Cactus => CACTUS_COLLISION_RECT

/-- Translation of a constant hit-box by a floored entity position, cast to
`u16` with wrap-around (`game.rs` lines 496-501 and 518-522). -/
def rect_translate (r : RectU16) (pos : Vector2D) : RectU16 :=
  { r with
    x := u16_add r.x (int_to_u16 (Number.floor pos.x))
    y := u16_add r.y (int_to_u16 (Number.floor pos.y)) }

/-- Modelled from the spec (sections 3 and 4.4): agb `Rect::touches`, the
precise rectangle test; inclusive contact counts as collision.  All `u16`
arithmetic inside wraps. -/
def rect_touches (a b : RectU16) : Bool :=
  decide (a.x ≤ u16_add b.x b.w) && decide (b.x ≤ u16_add a.x a.w) &&
  decide (a.y ≤ u16_add b.y b.h) && decide (b.y ≤ u16_add a.y a.h)

/-- The broad-phase gate (`game.rs` lines 511-513):
`player.x <= enemy.x + 32 && enemy.x <= player.x + 32` in fixed point. -/
def broad_phase (player_x enemy_x : Int) : Bool :=
  decide (player_x ≤ Number.add_int enemy_x 32) &&
  decide (enemy_x ≤ Number.add_int player_x 32)

/-- Whether one (not-out) enemy registers a collision this frame, after its
move (`game.rs` lines 504-528). -/
def enemy_hits_player (player_rect : RectU16) (player_x : Int) (v : Int)
    (e : Enemy) : Bool :=
  if enemy_is_out e then false
  else
    let moved := enemy_move v e
    if broad_phase player_x moved.position.x then
      rect_touches (rect_translate (kind_rect moved.kind) moved.position) player_rect
    else false

/-- The enemy advance / collision / prune / scroll part of `Game::frame`
(`game.rs` lines 495-541): every enemy is processed (the pass is never
short-circuited), a collision flag is accumulated, on any collision the state
becomes `Over(current_score)`, then the first `total_enemies_out` enemies are
drained and the background scrolls. -/
def Game.collision_phase (g : Game) : Game :=
  let player_rect := rect_translate DINO_COLLISION_RECT g.player.position
  let moved := g.enemies.map (enemy_move g.scroll_velocity)
  let total_enemies_out := g.enemies.countP (fun e => enemy_is_out e)
  let is_collided :=
    g.enemies.any (enemy_hits_player player_rect g.player.position.x g.scroll_velocity)
  { g with
    state := if is_collided then .Over g.current_score else g.state
    enemies := moved.drop total_enemies_out
    background_position.x := g.background_position.x + g.scroll_velocity }

/-- The part of the simulated frame before the spawn step: counter
increments, queue refill, level-up, player physics (`game.rs` lines
415-456). -/
def Game.pre_spawn (g : Game) (inp : Input) (rnd : Nat) : Game :=
  (((g.inc_counters).refill_queue rnd).level_up).apply_physics inp

/-- The simulated part of `Game::frame` (`game.rs` lines 415-541), reached in
the `Continue` and `Restart` states. -/
def Game.sim_frame (g : Game) (inp : Input) (rnd : Nat) : Option Game :=
  ((g.pre_spawn inp rnd).spawn_step).map Game.collision_phase

/-- Rust `Game::frame` (`game.rs` lines 376-542) as a function of the state and the
frame's input sample.  `none` models a panic. -/
def Game.frame (g : Game) (inp : Input) (rnd : Nat) : Option Game :=
  match g.state, inp.start_pressed with
  | .Continue, true => some { g with state := .Pause }
  | .Pause, true => some { g with state := .Continue }
  | .Over _, b =>
      if inp.a_pressed || b then some { g with state := .Restart }
      else some g
  | .Pause, false => some g
  | .Continue, false => g.sim_frame inp rnd
  | .Restart, _ => g.sim_frame inp rnd

/-- Iterated frames: the session states visited under a list of per-frame
input samples and random draws. -/
def Game.steps (g : Game) : List (Input × Nat) → Option Game
  | [] => some g
  | p :: rest => (g.frame p.1 p.2).bind (fun g' => g'.steps rest)

/-- Reachable session states: the initial session of some settings, or any
state produced from a reachable one by a frame call. -/
inductive Reachable (s : Settings) : Game → Prop where
  | init : Reachable s (Game.from_settings s)
  | step {g g' : Game} {inp : Input} {rnd : Nat} :
      Reachable s g → g.frame inp rnd = some g' → Reachable s g'

/-- Rust `SaveBuffer` (`save.rs` line 2): a fixed 5-byte buffer; each field is one
byte (a value in `[0, 256)`). -/
structure SaveBuffer where
  b0 : Nat
  b1 : Nat
  b2 : Nat
  b3 : Nat
  b4 : Nat
deriving Repr, DecidableEq

/-- Rust `SaveBuffer::is_savedata_exist` (`save.rs` lines 15-17): `self.0[0] == 0`. -/
def SaveBuffer.is_savedata_exist (s : SaveBuffer) : Bool := s.b0 == 0

/-- Rust `SaveBuffer::get_score` (`save.rs` lines 19-26): fold over bytes 1..5 of
`acc | (byte << (index * 8))`, unrolled over the four bytes of the slice. -/
def SaveBuffer.get_score (s : SaveBuffer) : Nat :=
  (((0 ||| (s.b1 <<< 0)) ||| (s.b2 <<< 8)) ||| (s.b3 <<< 16)) ||| (s.b4 <<< 24)

/-- Rust `From<u32> for SaveBuffer` (`save.rs` lines 29-37): byte 0 stays 0 and
bytes 1..5 are `value.to_le_bytes()` (little-endian bytes of the `u32`). -/
def SaveBuffer.from_u32 (v : Nat) : SaveBuffer :=
  ⟨0, v % 256, v / 256 % 256, v / 65536 % 256, v / 16777216 % 256⟩

/-- Spec-side definition for comparison (used only to express what the
collision test would be at the TRUE signed coordinates): a rectangle with
signed integer position. -/
structure RectInt where
  x : Int
  y : Int
  w : Int
  h : Int
deriving Repr, DecidableEq

/-- Spec-side: hit-box translated by the floored entity position without the
`u16` cast. -/
def int_rect_translate (r : RectU16) (pos : Vector2D) : RectInt :=
  ⟨(r.x : Int) + Number.floor pos.x, (r.y : Int) + Number.floor pos.y, r.w, r.h⟩

/-- Spec-side: inclusive rectangle contact over the true signed coordinates. -/
def int_rect_touches (a b : RectInt) : Bool :=
  decide (a.x ≤ b.x + b.w) && decide (b.x ≤ a.x + a.w) &&
  decide (a.y ≤ b.y + b.h) && decide (b.y ≤ a.y + a.h)

/-- The player state at session start: grounded at `(16, DINO_GROUNDED_Y)`. -/
def grounded_player : Player :=
  { position := ⟨Number.new 16, Number.new DINO_GROUNDED_Y⟩
    vertical_speed := 0
    is_jumping := false }

/-- The player after the frame of a jump press while grounded (frame 0) and
`n` further frames with no input, under gravity `grav`: exactly the physics
block of `Game::frame` iterated. -/
def jump_sim (grav : Int) (D : Nat) : Nat → Player
  | 0 => physics_step grounded_player grav true D
  | n + 1 => physics_step (jump_sim grav D n) grav false D

/-- A small concrete settings record for witnesses: scroll velocity 1 px per
frame, the spec scenario's jump (H = 45 px over D = 16 frames), room for 5
enemies. -/
def example_settings : Settings :=
  { init_scroll_velocity := Number.new 1
    scroll_velocity_increase_per_level := 0
    frames_to_level_up := 1000000
    animation_interval_frames := 10
    spawn_interval_frames := 0
    jump_height_px := 45
    jump_duration_frames := 16
    max_enemies_displayed := 5
    hi_score := 0 }

def example_game : Game := Game.from_settings example_settings

/-- The session `example_game` with a cactus just at the screen's left edge (raw fixed
point x = 0): after this frame's move by `scroll_velocity = 1` px its floored
x is `-1`. -/
def collision_example_game : Game :=
  { Game.from_settings example_settings with
    enemies := [⟨.Cactus, ⟨Number.new 0, Number.new CACTUS_Y⟩⟩]
    spawn_queue := [0] }

/-- A game about to spawn: front spawn byte `0` (delay 40) and a spawn counter
already past that delay. -/
def spawn_example_game : Game :=
  { collision_example_game with frames_since_last_spawn := 50 }

/- ------------------------------------------------------------------ -/
/- Theorems.                                                          -/
/- ------------------------------------------------------------------ -/

theorem lor_small_add {a b k : Nat} (h : a < 2 ^ k) : a ||| b * 2 ^ k = a + b * 2 ^ k := by
  calc a ||| b * 2 ^ k = 2 ^ k * b ||| a := by rw [Nat.lor_comm, Nat.mul_comm]
    _ = 2 ^ k * b + a := (Nat.mul_add_lt_is_or h b).symm
    _ = a + b * 2 ^ k := by ring

/-- Claim C5: decoding a spawn byte `b` is a pure, deterministic function of
`b` alone: `delay = (b & 0b111) * 12 + 40` (eight delay buckets),
`kind = Bird` iff `(b >> 3) & 0b111 < 4` (an exact 50/50 split over byte
values, 128 of 256), `variant = (b >> 6) & 0b11`, a bird spawns at
`(variant + 6) * 8`; in particular byte `0` decodes to a bird with delay 40
and variant 0, giving spawn y = 48. -/
theorem claim_C5 :
    (∀ b : Nat, b < 256 →
      SpawnInfo.delay b = (b &&& 0b111) * 12 + 40 ∧
      (SpawnInfo.enemy_kind b = .Bird ↔ (b >>> 3) &&& 0b111 < 4) ∧
      SpawnInfo.enemy_arg_2bit b = (b >>> 6) &&& 0b11 ∧
      (SpawnInfo.enemy_kind b = .Bird →
        (spawn_enemy b).position.y = Number.new ((SpawnInfo.enemy_arg_2bit b + 6) * 8))) ∧
    ((List.range 256).countP (fun b => SpawnInfo.enemy_kind b == .Bird)) = 128 ∧
    SpawnInfo.enemy_kind 0 = .Bird ∧ SpawnInfo.delay 0 = 40 ∧
    SpawnInfo.enemy_arg_2bit 0 = 0 ∧ (spawn_enemy 0).position.y = Number.new 48 := by
  decide

/-- Claim C5 witness: the universally quantified part evaluated at the
concrete byte `0b11_100_101`. -/
theorem claim_C5_witness :
    SpawnInfo.delay 0b11100101 = 100 ∧
    (SpawnInfo.enemy_kind 0b11100101 = .Bird ↔ (0b11100101 >>> 3) &&& 0b111 < 4) ∧
    SpawnInfo.enemy_arg_2bit 0b11100101 = 3 := by
  have h := claim_C5.1 0b11100101 (by decide)
  exact ⟨h.1.trans (by decide), h.2.1, h.2.2.1.trans (by decide)⟩

/-- Claim C8 counterexample: the claim says `is_savedata_exist` is true
exactly when byte 0 is nonzero; in the code it is `self.0[0] == 0`, so a
buffer with byte 0 = 1 yields `false`, and the buffer written by
`From<u32>` keeps byte 0 = 0 and yields `true`. -/
theorem claim_C8_counterexample :
    (SaveBuffer.mk 1 0 0 0 0).is_savedata_exist = false ∧
    (SaveBuffer.from_u32 7).b0 = 0 ∧
    (SaveBuffer.from_u32 7).is_savedata_exist = true := by
  decide

/-- Claim C8 (amended): `is_savedata_exist` returns true exactly when byte 0
is ZERO (the code treats 0 as the save-exists sentinel value, and `From<u32>`
leaves byte 0 at 0); bytes 1..5 little-endian encode the `u32` score, and
`get_score` recovers every `v < 2^32` from the buffer `From<u32>` builds. -/
theorem claim_C8 (s : SaveBuffer) (v : Nat) (hv : v < 4294967296) :
    (s.is_savedata_exist = true ↔ s.b0 = 0) ∧
    (SaveBuffer.from_u32 v).b0 = 0 ∧
    (SaveBuffer.from_u32 v).get_score = v := by
  refine ⟨by simp [SaveBuffer.is_savedata_exist], rfl, ?_⟩
  unfold SaveBuffer.from_u32 SaveBuffer.get_score
  simp only [Nat.shiftLeft_eq, Nat.zero_or, pow_zero, Nat.mul_one]
  rw [show (2 : Nat) ^ 8 = 256 from rfl, show (2 : Nat) ^ 16 = 65536 from rfl,
    show (2 : Nat) ^ 24 = 16777216 from rfl]
  rw [show (256 : Nat) = 2 ^ 8 from rfl, lor_small_add (by omega)]
  rw [show (65536 : Nat) = 2 ^ 16 from rfl, lor_small_add (by omega)]
  rw [show (16777216 : Nat) = 2 ^ 24 from rfl, lor_small_add (by omega)]
  omega

/-- Claim C8 witness: the amended claim evaluated at the buffer for score
305419896 (`0x12345678`). -/
theorem claim_C8_witness :
    (SaveBuffer.from_u32 305419896).is_savedata_exist = true ∧
    (SaveBuffer.from_u32 305419896).get_score = 305419896 := by
  have h := claim_C8 (SaveBuffer.from_u32 305419896) 305419896 (by decide)
  exact ⟨h.1.mpr h.2.1, h.2.2⟩

/-- Claim C2 counterexample: the claim says a START edge-press in EVERY state
(Continue, Pause or Over) transitions to Restart; but in the Continue state a
START edge-press transitions to Pause. -/
theorem claim_C2_counterexample :
    example_game.state = .Continue ∧
    Game.frame example_game ⟨true, false⟩ 0 = some { example_game with state := .Pause } ∧
    GameState.Pause ≠ GameState.Restart := by
  exact ⟨rfl, rfl, by decide⟩

/-- Claim C2 (amended): a START edge-press transitions Continue to Pause and
Pause to Continue (the pause toggle); only while Over does an edge-press of
START or of the confirm button (A) transition the session to Restart. -/
theorem claim_C2 (g : Game) (inp : Input) (rnd : Nat) :
    (∀ s, g.state = .Over s → (inp.start_pressed = true ∨ inp.a_pressed = true) →
      g.frame inp rnd = some { g with state := .Restart }) ∧
    (g.state = .Continue → inp.start_pressed = true →
      g.frame inp rnd = some { g with state := .Pause }) ∧
    (g.state = .Pause → inp.start_pressed = true →
      g.frame inp rnd = some { g with state := .Continue }) := by
  obtain ⟨st, a⟩ := inp
  refine ⟨?_, ?_, ?_⟩
  · rintro s hs h
    cases st <;> cases a <;> simp_all [Game.frame]
  · rintro hs rfl
    simp [Game.frame, hs]
  · rintro hs rfl
    simp [Game.frame, hs]

/-- Claim C2 witness: the amended claim evaluated on an Over-state session
with A pressed, and on a Continue-state session with START pressed. -/
theorem claim_C2_witness :
    Game.frame { example_game with state := .Over 3 } ⟨false, true⟩ 0 =
      some { example_game with state := .Restart } ∧
    Game.frame example_game ⟨true, false⟩ 1 = some { example_game with state := .Pause } := by
  have h1 := (claim_C2 { example_game with state := .Over 3 } ⟨false, true⟩ 0).1 3 rfl
    (Or.inr rfl)
  have h2 := (claim_C2 example_game ⟨true, false⟩ 1).2.1 rfl rfl
  exact ⟨h1, h2⟩

/-- Claim C10 counterexample: the claim says that for EVERY enemy passing the
broad-phase gate with a negative floored x the wrapped translation suppresses
the collision; but at floored x = -1 the cactus rectangle position wraps to
exactly 0 (not into 65504..65535) and the collision IS reported: the frame
transitions to Over. -/
theorem claim_C10_counterexample :
    Number.floor ((enemy_move collision_example_game.scroll_velocity
      ⟨.Cactus, ⟨Number.new 0, Number.new CACTUS_Y⟩⟩).position.x) = -1 ∧
    broad_phase collision_example_game.player.position.x
      ((enemy_move collision_example_game.scroll_velocity
        ⟨.Cactus, ⟨Number.new 0, Number.new CACTUS_Y⟩⟩).position.x) = true ∧
    (rect_translate CACTUS_COLLISION_RECT
      (enemy_move collision_example_game.scroll_velocity
        ⟨.Cactus, ⟨Number.new 0, Number.new CACTUS_Y⟩⟩).position).x = 0 ∧
    collision_example_game.collision_phase.state = .Over 0 := by
  exact ⟨by decide, by decide, by decide, by decide⟩

/-- Claim C10 (amended): the `as u16` casts wrap the floored position modulo
`2^16`.  For a cactus whose post-move floored x lies in `[-16, -2]` (the
broad-phase gate passes for the grounded player at x = 16), the translated
rectangle is placed at x in `[65521, 65535]` and the precise test reports NO
collision; for floored x in `[-3, -2]` the true signed-coordinate rectangles
do touch, so those contacts are missed.  At floored x = -1, however, the
position wraps to 0 and the collision is still reported (see the
counterexample), so the suppression holds only from floored x = -2 down. -/
theorem claim_C10 (r : Int) (h1 : -4096 ≤ r) (h2 : r ≤ -257) :
    broad_phase (Number.new 16) r = true ∧
    (65521 : Nat) ≤ (rect_translate CACTUS_COLLISION_RECT ⟨r, Number.new CACTUS_Y⟩).x ∧
    (rect_translate CACTUS_COLLISION_RECT ⟨r, Number.new CACTUS_Y⟩).x ≤ (65535 : Nat) ∧
    rect_touches (rect_translate CACTUS_COLLISION_RECT ⟨r, Number.new CACTUS_Y⟩)
      (rect_translate DINO_COLLISION_RECT grounded_player.position) = false ∧
    (-768 ≤ r →
      int_rect_touches (int_rect_translate CACTUS_COLLISION_RECT ⟨r, Number.new CACTUS_Y⟩)
        (int_rect_translate DINO_COLLISION_RECT grounded_player.position) = true) := by
  refine ⟨?_, ?_, ?_, ?_, ?_⟩
  · simp only [broad_phase, Number.add_int, Number.new, Bool.and_eq_true, decide_eq_true_eq]
    omega
  · simp only [rect_translate, u16_add, int_to_u16, Number.floor, Number.new,
      CACTUS_COLLISION_RECT, CACTUS_Y, GROUND_Y, GROUND_TILE_Y, BG_TILES_OFFSET_Y,
      BG_TILES_HEIGHT]
    omega
  · simp only [rect_translate, u16_add, int_to_u16, Number.floor, Number.new,
      CACTUS_COLLISION_RECT, CACTUS_Y, GROUND_Y, GROUND_TILE_Y, BG_TILES_OFFSET_Y,
      BG_TILES_HEIGHT]
    omega
  · simp only [rect_touches, rect_translate, u16_add, int_to_u16, Number.floor, Number.new,
      CACTUS_COLLISION_RECT, DINO_COLLISION_RECT, grounded_player, CACTUS_Y, DINO_GROUNDED_Y,
      GROUND_Y, GROUND_TILE_Y, BG_TILES_OFFSET_Y, BG_TILES_HEIGHT,
      Bool.and_eq_false_imp, Bool.and_eq_true, decide_eq_true_eq, decide_eq_false_iff_not]
    omega
  · intro h3
    simp only [int_rect_touches, int_rect_translate, Number.floor, Number.new,
      CACTUS_COLLISION_RECT, DINO_COLLISION_RECT, grounded_player, CACTUS_Y, DINO_GROUNDED_Y,
      GROUND_Y, GROUND_TILE_Y, BG_TILES_OFFSET_Y, BG_TILES_HEIGHT,
      Bool.and_eq_true, decide_eq_true_eq]
    omega

/-- Claim C10 witness: the amended claim evaluated at raw x = -512 (floored
x = -2): the code reports no collision although the true rectangles touch. -/
theorem claim_C10_witness :
    rect_touches (rect_translate CACTUS_COLLISION_RECT ⟨-512, Number.new CACTUS_Y⟩)
      (rect_translate DINO_COLLISION_RECT grounded_player.position) = false ∧
    int_rect_touches (int_rect_translate CACTUS_COLLISION_RECT ⟨-512, Number.new CACTUS_Y⟩)
      (int_rect_translate DINO_COLLISION_RECT grounded_player.position) = true := by
  have h := claim_C10 (-512) (by decide) (by decide)
  exact ⟨h.2.2.2.1, h.2.2.2.2 (by decide)⟩

/-- Claim C4: in a frame that reaches the spawn step, a spawn fires exactly
when `frames_since_last_spawn > spawn_queue.front().delay()`; on fire the
front entry is popped and the counter reset to 0 unconditionally, a new enemy
at x = 240 (y from its kind) is pushed only when the pool has spare capacity,
and with a full pool the entry is still consumed and the counter still
resets; with no fire the state is unchanged. -/
theorem claim_C4 (g : Game) (info : SpawnInfo) (rest : List SpawnInfo)
    (hq : g.spawn_queue = info :: rest) :
    (SpawnInfo.delay info < g.frames_since_last_spawn →
      (g.enemies.length < g.settings.max_enemies_displayed →
        g.spawn_step = some { g with
          spawn_queue := rest
          frames_since_last_spawn := 0
          enemies := g.enemies ++ [spawn_enemy info] }) ∧
      (¬ g.enemies.length < g.settings.max_enemies_displayed →
        g.spawn_step = some { g with
          spawn_queue := rest
          frames_since_last_spawn := 0 })) ∧
    (¬ SpawnInfo.delay info < g.frames_since_last_spawn → g.spawn_step = some g) ∧
    (spawn_enemy info).position.x = Number.new 240 ∧
    (spawn_enemy info).kind = SpawnInfo.enemy_kind info ∧
    (SpawnInfo.enemy_kind info = .Bird →
      (spawn_enemy info).position.y = Number.new ((SpawnInfo.enemy_arg_2bit info + 6) * 8)) ∧
    (SpawnInfo.enemy_kind info = .Cactus →
      (spawn_enemy info).position.y = Number.new CACTUS_Y) := by
  refine ⟨fun hfire => ⟨fun hcap => ?_, fun hcap => ?_⟩, fun hnofire => ?_, ?_, ?_, ?_, ?_⟩
  · simp [Game.spawn_step, hq, hfire, hcap]
  · simp [Game.spawn_step, hq, hfire, hcap]
  · simp [Game.spawn_step, hq, hnofire]
  · unfold spawn_enemy
    cases hk : SpawnInfo.enemy_kind info <;> simp [hk, Number.new]
  · unfold spawn_enemy
    cases hk : SpawnInfo.enemy_kind info <;> simp [hk]
  · intro hk
    unfold spawn_enemy
    simp [hk]
  · intro hk
    unfold spawn_enemy
    simp [hk]

/-- Claim C4 witness: the spawn step evaluated on a session whose counter
(50) exceeds the front entry's delay (40) with a non-full pool: the entry is
consumed, the counter resets, and the enemy appears at x = 240. -/
theorem claim_C4_witness :
    spawn_example_game.spawn_step = some { spawn_example_game with
      spawn_queue := []
      frames_since_last_spawn := 0
      enemies := spawn_example_game.enemies ++ [spawn_enemy 0] } ∧
    (spawn_enemy 0).position.x = Number.new 240 := by
  have h := claim_C4 spawn_example_game 0 [] rfl
  exact ⟨(h.1 (by decide)).1 (by decide), h.2.2.1⟩

theorem enemy_move_kind (v : Int) (e : Enemy) : (enemy_move v e).kind = e.kind := by
  unfold enemy_move
  split <;> rfl

theorem enemy_hits_player_iff (pr : RectU16) (px v : Int) (e : Enemy) :
    enemy_hits_player pr px v e = true ↔
      enemy_is_out e = false ∧
      broad_phase px (enemy_move v e).position.x = true ∧
      rect_touches (rect_translate (kind_rect (enemy_move v e).kind)
        (enemy_move v e).position) pr = true := by
  unfold enemy_hits_player
  by_cases hout : enemy_is_out e
  · simp [hout]
  · by_cases hbp : broad_phase px (enemy_move v e).position.x = true
    · simp [hout, hbp]
    · simp [hout, hbp]

theorem pre_spawn_fields (g : Game) (inp : Input) (rnd : Nat) :
    (g.pre_spawn inp rnd).settings = g.settings ∧
    (g.pre_spawn inp rnd).state = g.state ∧
    (g.pre_spawn inp rnd).frame_count = (g.frame_count + 1) % U32 ∧
    (g.pre_spawn inp rnd).enemies = g.enemies ∧
    (g.pre_spawn inp rnd).frames_since_last_spawn = (g.frames_since_last_spawn + 1) % U32 ∧
    (g.pre_spawn inp rnd).spawn_queue =
      (if g.spawn_queue.isEmpty then spawn_bytes rnd else g.spawn_queue) ∧
    (g.pre_spawn inp rnd).spawn_queue ≠ [] := by
  unfold Game.pre_spawn Game.apply_physics Game.level_up Game.refill_queue Game.inc_counters
  refine ?_
  split <;> split <;>
    refine ⟨rfl, rfl, rfl, rfl, rfl, rfl, ?_⟩ <;>
    simp_all [spawn_bytes, List.isEmpty_iff]

theorem spawn_step_some_spec (g : Game) (hne : g.spawn_queue ≠ []) :
    ∃ g', g.spawn_step = some g' ∧
      g'.settings = g.settings ∧ g'.state = g.state ∧
      g'.frame_count = g.frame_count ∧ g'.player = g.player ∧
      g'.scroll_velocity = g.scroll_velocity ∧
      (g.enemies.length ≤ g.settings.max_enemies_displayed →
        g'.enemies.length ≤ g.settings.max_enemies_displayed) ∧
      g'.spawn_queue.length + 1 ≥ g.spawn_queue.length := by
  cases hq : g.spawn_queue with
  | nil => exact absurd hq hne
  | cons info rest =>
    simp only [Game.spawn_step, hq]
    by_cases hfire : SpawnInfo.delay info < g.frames_since_last_spawn
    · by_cases hcap : g.enemies.length < g.settings.max_enemies_displayed
      · exact ⟨{ g with spawn_queue := rest, frames_since_last_spawn := 0, enemies := g.enemies ++ [spawn_enemy info] }, by rw [if_pos hfire, if_pos hcap], rfl, rfl, rfl, rfl, rfl, fun hle => by simp only [List.length_append, List.length_cons, List.length_nil]; omega, by simp [hq]⟩
      · exact ⟨{ g with spawn_queue := rest, frames_since_last_spawn := 0 }, by rw [if_pos hfire, if_neg hcap], rfl, rfl, rfl, rfl, rfl, fun hle => hle, by simp [hq]⟩
    · exact ⟨g, by rw [if_neg hfire], rfl, rfl, rfl, rfl, rfl, fun h => h, by simp [hq]⟩

theorem collision_phase_fields (g : Game) :
    g.collision_phase.settings = g.settings ∧
    g.collision_phase.frame_count = g.frame_count ∧
    g.collision_phase.spawn_queue = g.spawn_queue ∧
    g.collision_phase.frames_since_last_spawn = g.frames_since_last_spawn ∧
    g.collision_phase.player = g.player ∧
    g.collision_phase.enemies.length ≤ g.enemies.length ∧
    (g.collision_phase.state = g.state ∨
      g.collision_phase.state = .Over (current_score_of g.frame_count)) := by
  unfold Game.collision_phase
  refine ⟨rfl, rfl, rfl, rfl, rfl, ?_, ?_⟩
  · simp only [List.length_drop, List.length_map]
    omega
  · by_cases hc :
      g.enemies.any (enemy_hits_player (rect_translate DINO_COLLISION_RECT g.player.position)
        g.player.position.x g.scroll_velocity) = true
    · exact Or.inr (by simp [hc, Game.current_score])
    · exact Or.inl (by simp [hc])

theorem sim_frame_spec (g : Game) (inp : Input) (rnd : Nat) :
    ∃ g', g.sim_frame inp rnd = some g' ∧
      g'.settings = g.settings ∧
      g'.frame_count = (g.frame_count + 1) % U32 ∧
      (g'.state = g.state ∨
        g'.state = .Over (current_score_of ((g.frame_count + 1) % U32))) ∧
      (g.enemies.length ≤ g.settings.max_enemies_displayed →
        g'.enemies.length ≤ g.settings.max_enemies_displayed) ∧
      g'.spawn_queue.length + 1 ≥
        (if g.spawn_queue.isEmpty then 4 else g.spawn_queue.length) := by
  obtain ⟨hset, hstate, hfc, hen, hfs, hque, hne⟩ := pre_spawn_fields g inp rnd
  obtain ⟨g1, hstep, h1set, h1state, h1fc, h1pl, h1v, h1len, h1q⟩ :=
    spawn_step_some_spec (g.pre_spawn inp rnd) hne
  obtain ⟨c1, c2, c3, c4, c5, c6, c7⟩ := collision_phase_fields g1
  refine ⟨g1.collision_phase, ?_, ?_, ?_, ?_, ?_, ?_⟩
  · simp [Game.sim_frame, hstep]
  · rw [c1, h1set, hset]
  · rw [c2, h1fc, hfc]
  · rcases c7 with h | h
    · rw [h, h1state, hstate]
      exact Or.inl rfl
    · rw [h, h1fc, hfc]
      exact Or.inr rfl
  · intro hle
    rw [hen, hset] at h1len
    exact le_trans c6 (h1len hle)
  · rw [c3]
    have hlen : (g.pre_spawn inp rnd).spawn_queue.length =
        (if g.spawn_queue.isEmpty then 4 else g.spawn_queue.length) := by
      rw [hque]
      split <;> simp [spawn_bytes]
    omega

/-- Claim C9: the frame operation is total: `Game::frame` never panics on the
spawn-queue unwraps, because the queue is refilled (with exactly 4 entries
decoded from one 32-bit draw) at the start of a simulated frame whenever it
is empty, before the delay check, and at most one entry is popped per
frame. -/
theorem claim_C9 :
    (∀ (g : Game) (inp : Input) (rnd : Nat), (g.frame inp rnd).isSome = true) ∧
    (∀ (g : Game) (rnd : Nat), g.spawn_queue = [] →
      (g.refill_queue rnd).spawn_queue = spawn_bytes rnd ∧
      (g.refill_queue rnd).spawn_queue.length = 4) ∧
    (∀ (g : Game) (inp : Input) (rnd : Nat) (g' : Game), g.sim_frame inp rnd = some g' →
      g'.spawn_queue.length + 1 ≥
        (if g.spawn_queue.isEmpty then 4 else g.spawn_queue.length)) := by
  refine ⟨?_, ?_, ?_⟩
  · intro g inp rnd
    obtain ⟨st, a⟩ := inp
    obtain ⟨g', hsim, -⟩ := sim_frame_spec g ⟨st, a⟩ rnd
    cases hstate : g.state <;> cases st <;> cases a <;>
      simp_all [Game.frame]
  · intro g rnd hq
    constructor
    · simp [Game.refill_queue, hq]
    · simp [Game.refill_queue, hq, spawn_bytes]
  · intro g inp rnd g' hsim
    obtain ⟨g'', hsim', -, -, -, -, hpop⟩ := sim_frame_spec g inp rnd
    rw [hsim] at hsim'
    cases hsim'
    exact hpop

/-- Claim C9 witness: a concrete simulated frame from the initial session
(empty queue): the frame call returns a state, the refill produces the 4
bytes of the draw `0x04030201`, and the queue afterwards still has at least
3 entries. -/
theorem claim_C9_witness :
    (example_game.frame ⟨false, false⟩ 0x04030201).isSome = true ∧
    (example_game.refill_queue 0x04030201).spawn_queue = [1, 2, 3, 4] ∧
    3 ≤ ((example_game.sim_frame ⟨false, false⟩ 0x04030201).getD
      example_game).spawn_queue.length := by
  have h1 := claim_C9.1 example_game ⟨false, false⟩ 0x04030201
  have h2 := (claim_C9.2.1 example_game 0x04030201 rfl).1
  have h3 := claim_C9.2.2 example_game ⟨false, false⟩ 0x04030201
    ((example_game.sim_frame ⟨false, false⟩ 0x04030201).getD example_game) rfl
  refine ⟨h1, h2.trans (by decide), ?_⟩
  have hq4 : (if example_game.spawn_queue.isEmpty then 4
      else example_game.spawn_queue.length) = 4 := rfl
  rw [hq4] at h3
  omega

theorem collision_phase_state (g : Game) :
    g.collision_phase.state =
      (if g.enemies.any (enemy_hits_player
          (rect_translate DINO_COLLISION_RECT g.player.position)
          g.player.position.x g.scroll_velocity) then
        GameState.Over (current_score_of g.frame_count)
      else g.state) := rfl

theorem collision_phase_enemies (g : Game) :
    g.collision_phase.enemies =
      (g.enemies.map (enemy_move g.scroll_velocity)).drop
        (g.enemies.countP (fun e => enemy_is_out e)) := rfl

/-- Claim C6: in a Continue frame the session transitions to
`Over(current_score)` if and only if some active on-screen enemy (floored x
at least -32) passes the broad-phase gate
`player.x <= enemy.x + 32 && enemy.x <= player.x + 32` after its move and has
its kind-specific hit-box, translated by its floored position, touching the
player's translated hit-box; the per-enemy pass is not short-circuited: the
resulting enemy list is the full moved list with the counted-out prefix
dropped, independent of any collision. -/
theorem claim_C6 (g : Game) (hc : g.state = .Continue) :
    (g.collision_phase.state = .Over (current_score_of g.frame_count) ↔
      ∃ e ∈ g.enemies, enemy_is_out e = false ∧
        broad_phase g.player.position.x (enemy_move g.scroll_velocity e).position.x = true ∧
        rect_touches
          (rect_translate (kind_rect (enemy_move g.scroll_velocity e).kind)
            (enemy_move g.scroll_velocity e).position)
          (rect_translate DINO_COLLISION_RECT g.player.position) = true) ∧
    (∀ sc, g.collision_phase.state = .Over sc → sc = current_score_of g.frame_count) ∧
    g.collision_phase.enemies =
      (g.enemies.map (enemy_move g.scroll_velocity)).drop
        (g.enemies.countP (fun e => enemy_is_out e)) := by
  have hhit : ∀ e, enemy_hits_player
      (rect_translate DINO_COLLISION_RECT g.player.position)
      g.player.position.x g.scroll_velocity e = true ↔
      enemy_is_out e = false ∧
      broad_phase g.player.position.x (enemy_move g.scroll_velocity e).position.x = true ∧
      rect_touches
        (rect_translate (kind_rect (enemy_move g.scroll_velocity e).kind)
          (enemy_move g.scroll_velocity e).position)
        (rect_translate DINO_COLLISION_RECT g.player.position) = true :=
    fun e => enemy_hits_player_iff _ _ _ e
  by_cases hany : g.enemies.any (enemy_hits_player
      (rect_translate DINO_COLLISION_RECT g.player.position)
      g.player.position.x g.scroll_velocity) = true
  · refine ⟨?_, ?_, collision_phase_enemies g⟩
    · rw [collision_phase_state, if_pos hany]
      simp only [true_iff]
      obtain ⟨e, he, hPe⟩ := List.any_eq_true.mp hany
      exact ⟨e, he, (hhit e).mp hPe⟩
    · intro sc hsc
      rw [collision_phase_state, if_pos hany] at hsc
      cases hsc
      rfl
  · refine ⟨?_, ?_, collision_phase_enemies g⟩
    · rw [collision_phase_state, if_neg hany, hc]
      constructor
      · intro hfalse
        cases hfalse
      · rintro ⟨e, he, hcond⟩
        exact absurd (List.any_eq_true.mpr ⟨e, he, (hhit e).mpr hcond⟩) hany
    · intro sc hsc
      rw [collision_phase_state, if_neg hany, hc] at hsc
      cases hsc

/-- Claim C6 witness: the session with a cactus that collides this frame
(post-move floored x = -1, overlapping the grounded player) transitions to
`Over(current_score)`. -/
theorem claim_C6_witness :
    collision_example_game.collision_phase.state =
      .Over (current_score_of collision_example_game.frame_count) := by
  exact (claim_C6 collision_example_game rfl).1.mpr
    ⟨⟨.Cactus, ⟨Number.new 0, Number.new CACTUS_Y⟩⟩, by decide, by decide, by decide, by decide⟩

theorem frame_sim_arm (g : Game) (inp : Input) (rnd : Nat) (g' : Game)
    (hs : g.sim_frame inp rnd = some g')
    (hns : g.state = .Continue ∨ g.state = .Restart) :
    g'.settings = g.settings ∧
    (g.enemies.length ≤ g.settings.max_enemies_displayed →
      g'.enemies.length ≤ g.settings.max_enemies_displayed) ∧
    (∀ sc, g'.state = .Over sc → sc = current_score_of g'.frame_count) := by
  obtain ⟨g2, hsim2, hset, hfc, hstate2, hlen, hq⟩ := sim_frame_spec g inp rnd
  rw [hs] at hsim2
  cases hsim2
  refine ⟨hset, hlen, ?_⟩
  intro sc hsc
  rcases hstate2 with h | h
  · rcases hns with hg | hg <;> rw [hsc, hg] at h <;> cases h
  · rw [hsc] at h
    cases h
    rw [hfc]

theorem frame_spec (g : Game) (inp : Input) (rnd : Nat) (g' : Game)
    (h : g.frame inp rnd = some g') :
    g'.settings = g.settings ∧
    (g.enemies.length ≤ g.settings.max_enemies_displayed →
      g'.enemies.length ≤ g.settings.max_enemies_displayed) ∧
    (∀ sc, g'.state = .Over sc →
      (g.state = .Over sc ∧ g'.frame_count = g.frame_count) ∨
      sc = current_score_of g'.frame_count) := by
  obtain ⟨st, a⟩ := inp
  cases hstate : g.state with
  | Continue =>
      cases st with
      | true =>
          have hg : g' = { g with state := .Pause } := by
            rw [Game.frame, hstate] at h
            exact (Option.some.inj h).symm
          subst hg
          exact ⟨rfl, fun hh => hh, fun sc hsc => by cases hsc⟩
      | false =>
          have hs : g.sim_frame ⟨false, a⟩ rnd = some g' := by
            rw [Game.frame, hstate] at h
            exact h
          obtain ⟨h1, h2, h3⟩ := frame_sim_arm g ⟨false, a⟩ rnd g' hs (Or.inl hstate)
          exact ⟨h1, h2, fun sc hsc => Or.inr (h3 sc hsc)⟩
  | Restart =>
      have hs : g.sim_frame ⟨st, a⟩ rnd = some g' := by
        rw [Game.frame, hstate] at h
        exact h
      obtain ⟨h1, h2, h3⟩ := frame_sim_arm g ⟨st, a⟩ rnd g' hs (Or.inr hstate)
      exact ⟨h1, h2, fun sc hsc => Or.inr (h3 sc hsc)⟩
  | Pause =>
      cases st with
      | true =>
          have hg : g' = { g with state := .Continue } := by
            rw [Game.frame, hstate] at h
            exact (Option.some.inj h).symm
          subst hg
          exact ⟨rfl, fun hh => hh, fun sc hsc => by cases hsc⟩
      | false =>
          have hg : g' = g := by
            rw [Game.frame, hstate] at h
            exact (Option.some.inj h).symm
          subst hg
          exact ⟨rfl, fun hh => hh, fun sc hsc => Or.inl ⟨hstate.symm ▸ hsc, rfl⟩⟩
  | Over s0 =>
      cases st <;> cases a <;> simp [Game.frame, hstate] at h
      case false.false =>
        subst h
        exact ⟨rfl, fun hh => hh, fun sc hsc => Or.inl ⟨hstate.symm.trans hsc, rfl⟩⟩
      case false.true =>
        subst h
        exact ⟨rfl, fun hh => hh, fun sc hsc => by cases hsc⟩
      case true.false =>
        subst h
        exact ⟨rfl, fun hh => hh, fun sc hsc => by cases hsc⟩
      case true.true =>
        subst h
        exact ⟨rfl, fun hh => hh, fun sc hsc => by cases hsc⟩

theorem reachable_inv (s : Settings) (g : Game) (h : Reachable s g) :
    g.settings = s ∧ g.enemies.length ≤ s.max_enemies_displayed ∧
    (∀ sc, g.state = .Over sc → sc = current_score_of g.frame_count) := by
  induction h with
  | init =>
      refine ⟨rfl, by simp [Game.from_settings], ?_⟩
      intro sc hsc
      simp [Game.from_settings] at hsc
  | step hr hf ih =>
      obtain ⟨hset, hlen, hov⟩ := frame_spec _ _ _ _ hf
      obtain ⟨iset, ilen, iov⟩ := ih
      refine ⟨hset.trans iset, ?_, ?_⟩
      · rw [iset] at hlen
        exact hlen ilen
      · intro sc hsc
        rcases hov sc hsc with ⟨hover, hfc⟩ | hdirect
        · rw [hfc]
          exact iov sc hover
        · exact hdirect

/-- Claim C3: in every session state reachable by any sequence of frame calls
with any inputs and random bytes, the enemy pool holds at most
`settings.max_enemies_displayed` enemies. -/
theorem claim_C3 (s : Settings) (g : Game) (h : Reachable s g) :
    g.enemies.length ≤ s.max_enemies_displayed :=
  (reachable_inv s g h).2.1

/-- Claim C3 witness: the bound evaluated on the concrete state after one
simulated frame from the initial session of `example_settings`. -/
theorem claim_C3_witness :
    ((example_game.frame ⟨false, false⟩ 0x04030201).getD example_game).enemies.length ≤
      example_settings.max_enemies_displayed := by
  exact claim_C3 example_settings _
    (@Reachable.step example_settings example_game
      ((example_game.frame ⟨false, false⟩ 0x04030201).getD example_game)
      ⟨false, false⟩ 0x04030201 Reachable.init (by rfl))

/-- Claim C7: the current score is `frame_count / 6` capped at 999999 (the
cap takes over exactly when `frame_count` reaches 6,000,000); it is
monotonically non-decreasing in `frame_count`; in every reachable state the
score stored in `Over(score)` equals `current_score` at that state's frame
count; and an Over-state frame with no buttons pressed leaves the session
(hence the captured score) exactly unchanged. -/
theorem claim_C7 :
    (∀ fc : Nat, current_score_of fc = min (fc / 6) 999999) ∧
    (∀ fc fc' : Nat, fc ≤ fc' → current_score_of fc ≤ current_score_of fc') ∧
    (∀ (s : Settings) (g : Game), Reachable s g → ∀ sc, g.state = .Over sc →
      sc = current_score_of g.frame_count) ∧
    (∀ (g : Game) (inp : Input) (rnd : Nat) (sc : Nat), g.state = .Over sc →
      inp.start_pressed = false → inp.a_pressed = false → g.frame inp rnd = some g) := by
  refine ⟨?_, ?_, ?_, ?_⟩
  · intro fc
    unfold current_score_of
    split <;> omega
  · intro fc fc' hle
    unfold current_score_of
    split <;> split <;> omega
  · intro s g h sc hsc
    exact (reachable_inv s g h).2.2 sc hsc
  · rintro ⟨set, state, fc, sl, bp, sv, grav, pl, en, fcl, fsls, sq⟩ ⟨st, a⟩ rnd sc hsc h1 h2
    cases h1
    cases h2
    cases hsc
    rfl

/-- Claim C7 witness: the score formula at 6,000,001 frames (capped), a
monotonicity instance, and the frozen Over frame on a concrete session. -/
theorem claim_C7_witness :
    current_score_of 6000001 = 999999 ∧
    current_score_of 60 ≤ current_score_of 600 ∧
    Game.frame { example_game with state := .Over 3 } ⟨false, false⟩ 0 =
      some { example_game with state := .Over 3 } := by
  refine ⟨(claim_C7.1 6000001).trans (by decide), claim_C7.2.1 60 600 (by decide), ?_⟩
  exact claim_C7.2.2.2 { example_game with state := .Over 3 } ⟨false, false⟩ 0 3 rfl rfl rfl

theorem jump_sim_succ (grav : Int) (D n : Nat) :
    jump_sim grav D (n + 1) = physics_step (jump_sim grav D n) grav false D := rfl

theorem grounded_y_value : (DINO_GROUNDED_Y : Int) = 82 := by decide

theorem gravity_of_bounds (H D : Nat) (hD : 1 ≤ D) (hDsq : D ^ 2 < 65536) :
    0 ≤ gravity_of H D ∧
    gravity_of H D * ((D : Int) ^ 2) ≤ 512 * H ∧
    (512 * H : Int) < (gravity_of H D + 1) * ((D : Int) ^ 2) := by
  have hsq : ((D : Int)) ^ 2 < 65536 := by exact_mod_cast hDsq
  have hsq0 : (0 : Int) ≤ (D : Int) ^ 2 := by positivity
  have hmod : ((D : Int)) ^ 2 % ((U16 : Nat) : Int) = (D : Int) ^ 2 := by
    have hu : ((U16 : Nat) : Int) = 65536 := by decide
    rw [hu]
    exact Int.emod_eq_of_lt hsq0 hsq
  have hD2 : (1 : Nat) ≤ D ^ 2 := Nat.one_le_pow _ _ (by omega)
  have hD2I : (1 : Int) ≤ (D : Int) ^ 2 := by exact_mod_cast hD2
  unfold gravity_of fixnum_div Number.new
  rw [hmod]
  have hb : (0 : Int) < ((D : Int) ^ 2) * 256 := by positivity
  rw [Int.tdiv_eq_ediv (by positivity) (le_of_lt hb)]
  have h1 := Int.ediv_add_emod (2 * (H : Int) * 256 * 256) (((D : Int) ^ 2) * 256)
  have h2 := Int.emod_nonneg (2 * (H : Int) * 256 * 256) (ne_of_gt hb)
  have h3 := Int.emod_lt_of_pos (2 * (H : Int) * 256 * 256) hb
  have hq0 : 0 ≤ (2 * (H : Int) * 256 * 256) / (((D : Int) ^ 2) * 256) :=
    Int.ediv_nonneg (by positivity) (le_of_lt hb)
  refine ⟨hq0, ?_, ?_⟩
  · nlinarith [h1, h2]
  · nlinarith [h1, h3]

theorem jump_sim_closed (grav : Int) (D : Nat) (hg : 1 ≤ grav) (_hD : 1 ≤ D) :
    ∀ n : Nat, n ≤ 2 * D →
      (jump_sim grav D n).is_jumping = true ∧
      (jump_sim grav D n).position.x = Number.new 16 ∧
      2 * (jump_sim grav D n).position.y =
        2 * (DINO_GROUNDED_Y : Int) * 256 - grav * n * (2 * D + 1 - n) ∧
      (jump_sim grav D n).vertical_speed = grav * ((n : Int) - D) := by
  intro n
  induction n with
  | zero =>
      intro _
      have h0 : jump_sim grav D 0 =
          { grounded_player with
            vertical_speed := -(Number.mul_int grav (D : Int))
            is_jumping := true } := rfl
      rw [h0]
      refine ⟨rfl, rfl, ?_, ?_⟩
      · show 2 * Number.new (DINO_GROUNDED_Y : Int) = _
        unfold Number.new
        ring
      · show -(Number.mul_int grav (D : Int)) = _
        unfold Number.mul_int
        push_cast
        ring_nf
  | succ n ih =>
      intro hn1
      obtain ⟨hj, hx, hy, hv⟩ := ih (by omega)
      have hcast1 : (1 : Int) ≤ (n : Int) + 1 := by omega
      have hcast2 : (1 : Int) ≤ 2 * (D : Int) - (n : Int) := by
        have : n + 1 ≤ 2 * D := hn1
        omega
      have hy1 : 2 * ((jump_sim grav D n).position.y + (jump_sim grav D n).vertical_speed) =
          2 * (DINO_GROUNDED_Y : Int) * 256 - grav * ((n : Int) + 1) * (2 * (D : Int) - n) := by
        rw [mul_add, hy, hv]
        ring
      have hprod : (1 : Int) ≤ grav * ((n : Int) + 1) * (2 * (D : Int) - n) := by
        have hp1 : (1 : Int) ≤ grav * ((n : Int) + 1) := by nlinarith
        nlinarith
      have hlt : (jump_sim grav D n).position.y + (jump_sim grav D n).vertical_speed <
          (DINO_GROUNDED_Y : Int) * 256 := by
        nlinarith [hy1, hprod]
      have hng : ¬ (Number.floor ((jump_sim grav D n).position.y +
          (jump_sim grav D n).vertical_speed) ≥ (DINO_GROUNDED_Y : Int)) := by
        unfold Number.floor
        rw [grounded_y_value] at hlt ⊢
        omega
      have hstep : jump_sim grav D (n + 1) =
          { jump_sim grav D n with
            position.y := (jump_sim grav D n).position.y + (jump_sim grav D n).vertical_speed
            is_jumping := true
            vertical_speed := (jump_sim grav D n).vertical_speed + grav } := by
        rw [jump_sim_succ]
        unfold physics_step
        rw [hj]
        simp only [if_true, if_neg hng]
      rw [hstep]
      refine ⟨rfl, hx, ?_, ?_⟩
      · show 2 * ((jump_sim grav D n).position.y + (jump_sim grav D n).vertical_speed) = _
        rw [hy1]
        push_cast
        ring
      · show (jump_sim grav D n).vertical_speed + grav = _
        rw [hv]
        push_cast
        ring

theorem jump_sim_land (grav : Int) (D : Nat) (hg : 1 ≤ grav) (hD : 1 ≤ D) :
    (jump_sim grav D (2 * D + 1)).position.y = Number.new (DINO_GROUNDED_Y : Int) ∧
    (jump_sim grav D (2 * D + 1)).is_jumping = false := by
  obtain ⟨hj, hx, hy, hv⟩ := jump_sim_closed grav D hg hD (2 * D) (le_refl _)
  have hy1 : (jump_sim grav D (2 * D)).position.y + (jump_sim grav D (2 * D)).vertical_speed =
      (DINO_GROUNDED_Y : Int) * 256 := by
    have h2 : 2 * ((jump_sim grav D (2 * D)).position.y +
        (jump_sim grav D (2 * D)).vertical_speed) = 2 * ((DINO_GROUNDED_Y : Int) * 256) := by
      rw [mul_add, hy, hv]
      push_cast
      ring
    linarith
  have hgd : Number.floor ((jump_sim grav D (2 * D)).position.y +
      (jump_sim grav D (2 * D)).vertical_speed) ≥ (DINO_GROUNDED_Y : Int) := by
    rw [hy1]
    unfold Number.floor
    rw [grounded_y_value]
    omega
  have hstep : jump_sim grav D (2 * D + 1) =
      { jump_sim grav D (2 * D) with
        position.y := Number.new (DINO_GROUNDED_Y : Int)
        is_jumping := false
        vertical_speed := (jump_sim grav D (2 * D)).vertical_speed + grav } := by
    rw [jump_sim_succ]
    unfold physics_step
    rw [hj]
    simp only [if_true, if_pos hgd]
  rw [hstep]
  exact ⟨rfl, rfl⟩

/-- Claim C1 counterexample: for the spec scenario H = 45 px, D = 16 frames
(derived gravity 90/256 px per frame squared), the player is NOT back at
`grounded_y` at or before frame 17: frames 1 through 17 are all strictly
above the ground line (frame 17 is in fact near the arc's apex). -/
theorem claim_C1_counterexample :
    gravity_of 45 16 = 90 ∧
    ((List.range 17).all fun k =>
      (jump_sim (gravity_of 45 16) 16 (k + 1)).position.y !=
        Number.new (DINO_GROUNDED_Y : Int)) = true ∧
    (jump_sim (gravity_of 45 16) 16 17).is_jumping = true := by
  refine ⟨by decide, by decide, by decide⟩

/-- Claim C1 (amended): with gravity derived as `floor(512*H/D^2)` raw units
(hypotheses: nonzero gravity, `D^2` within `u16`), an uninterrupted jump
pressed at frame 0 leaves `grounded_y` at frame 1, stays strictly above it
through frame `2*D`, and returns to exactly `grounded_y` at frame `2*D + 1`
(not within one frame of `D`: the configured duration is the time to the
apex, half the arc).  The maximum height, reached at frame `D`, is
`grav * D * (D+1) / 2` raw units where `grav*D^2 <= 512*H < (grav+1)*D^2`,
i.e. about `H * (D+1) / D` pixels — within `H/D` pixels plus rounding of `H`,
not within rounding tolerance alone. -/
theorem claim_C1 (H D : Nat) (grav : Int) (_hH : 1 ≤ H) (hD : 1 ≤ D)
    (hDsq : D ^ 2 < 65536) (hgrav : grav = gravity_of H D) (hg : 1 ≤ grav) :
    (∀ n : Nat, 1 ≤ n → n ≤ 2 * D →
      Number.floor (jump_sim grav D n).position.y < (DINO_GROUNDED_Y : Int) ∧
      (jump_sim grav D n).is_jumping = true) ∧
    ((jump_sim grav D (2 * D + 1)).position.y = Number.new (DINO_GROUNDED_Y : Int) ∧
      (jump_sim grav D (2 * D + 1)).is_jumping = false) ∧
    2 * ((DINO_GROUNDED_Y : Int) * 256 - (jump_sim grav D D).position.y) =
      grav * D * ((D : Int) + 1) ∧
    (∀ n : Nat, n ≤ 2 * D →
      (jump_sim grav D D).position.y ≤ (jump_sim grav D n).position.y) ∧
    (grav * ((D : Int) ^ 2) ≤ 512 * H ∧ (512 * H : Int) < (grav + 1) * ((D : Int) ^ 2)) := by
  have hbounds := gravity_of_bounds H D hD hDsq
  have hD2 : D ≤ 2 * D := by omega
  obtain ⟨hjD, hxD, hyD, hvD⟩ := jump_sim_closed grav D hg hD D hD2
  refine ⟨?_, jump_sim_land grav D hg hD, ?_, ?_, ?_⟩
  · intro n hn1 hn2
    obtain ⟨hj, hx, hy, hv⟩ := jump_sim_closed grav D hg hD n hn2
    refine ⟨?_, hj⟩
    have hc1 : (1 : Int) ≤ (n : Int) := by exact_mod_cast hn1
    have hc2 : (1 : Int) ≤ 2 * (D : Int) + 1 - (n : Int) := by
      have : n ≤ 2 * D := hn2
      omega
    have hprod : (1 : Int) ≤ grav * (n : Int) * (2 * (D : Int) + 1 - n) := by
      have hp1 : (1 : Int) ≤ grav * (n : Int) := by nlinarith
      nlinarith
    have hlt : (jump_sim grav D n).position.y < (DINO_GROUNDED_Y : Int) * 256 := by
      nlinarith [hy, hprod]
    unfold Number.floor
    rw [grounded_y_value] at hlt ⊢
    omega
  · linear_combination -hyD
  · intro n hn
    obtain ⟨hj, hx, hy, hv⟩ := jump_sim_closed grav D hg hD n hn
    have hpar : ((n : Int) - D) * ((n : Int) - D - 1) ≥ 0 := by
      rcases le_or_lt ((n : Int) - D) 0 with hle | hlt
      · have hle2 : (n : Int) - D - 1 ≤ 0 := by omega
        nlinarith [mul_nonneg (neg_nonneg.mpr hle) (neg_nonneg.mpr hle2)]
      · exact mul_nonneg (by omega) (by omega)
    have hg0 : (0 : Int) ≤ grav := by omega
    have hkey := mul_nonneg hg0 hpar
    have hdiff : 2 * (jump_sim grav D n).position.y - 2 * (jump_sim grav D D).position.y =
        grav * (((n : Int) - D) * ((n : Int) - D - 1)) := by
      linear_combination hy - hyD
    linarith [hdiff, hkey]
  · rw [hgrav]
    exact ⟨hbounds.2.1, hbounds.2.2⟩

/-- Claim C1 witness: the amended claim at the scenario H = 45, D = 16
(gravity 90): airborne at frame 1 and exact landing at frame 33. -/
theorem claim_C1_witness :
    Number.floor (jump_sim (gravity_of 45 16) 16 1).position.y < (DINO_GROUNDED_Y : Int) ∧
    (jump_sim (gravity_of 45 16) 16 33).position.y = Number.new (DINO_GROUNDED_Y : Int) := by
  have h := claim_C1 45 16 (gravity_of 45 16) (by decide) (by decide) (by decide) rfl
    (by decide)
  exact ⟨(h.1 1 (by decide) (by decide)).1, h.2.1.1⟩

end DinoGame
